import Mathlib

/-!
# Shallow embedding of the SSDP search module (`src/ssdp/search.rs`)

This file embeds the data model and operations of the repository's SSDP
search module in Lean 4 and proves/refutes properties of them.

Conventions of the embedding:
* Rust `String` becomes Lean `String`; Rust byte-indexed slicing and
  prefix tests are modelled at the `List Char` level (all literal
  prefixes used by the code are ASCII, where byte and character indices
  coincide).
* Rust `HashMap<String, String>` becomes an association list
  `List (String × String)`; `get` is first-match lookup and `filter` /
  iteration preserve the list order.
* Fallible Rust functions returning `Result<T, Error>` become
  `Except Error T`; a Rust `panic` (a failing `.unwrap()`) is made
  explicit through a dedicated outcome constructor.
* Types of this crate that live outside the provided source file
  (`SpecVersion`, `Error`, `MessageErrorKind`, `ControlPoint`, the
  `protocol` constants and the `utils::headers` helpers) are modelled
  from the specification; each such definition is marked
  `Modelled from the spec:` in its doc comment.
-/

namespace Upnp

/-- Modelled from the spec: ordered enumeration of protocol versions
`{V10, V11, V20}`; ordering matters because feature availability is
version-gated. -/
inductive SpecVersion where
  | V10
  | V11
  | V20
deriving DecidableEq, Repr

/-- Numeric rank giving the order V10 < V11 < V20. -/
def SpecVersion.rank : SpecVersion → Nat
  | .V10 => 0
  | .V11 => 1
  | .V20 => 2

/-- Models the Rust comparison `spec_version >= v` on `SpecVersion`. -/
def SpecVersion.atLeast (a b : SpecVersion) : Bool :=
  b.rank ≤ a.rank

/-- Modelled from the spec: the error kinds carried by
`Error::MessageFormat` that this module uses. -/
inductive MessageErrorKind where
  | MissingRequiredField
  | InvalidFieldValue
  | VersionMismatch
deriving DecidableEq, Repr

/-- Modelled from the spec: the crate error type, restricted to the
variants this module constructs (`MessageFormat` and `Unsupported`). -/
inductive Error where
  | MessageFormat (kind : MessageErrorKind)
  | Unsupported
deriving DecidableEq, Repr

/-- Modelled from the spec: control point metadata
`{friendly_name, port, uuid}`, required only under V20. -/
structure ControlPoint where
  friendly_name : String
  port : Option Nat
  uuid : Option String
deriving DecidableEq, Repr

/-- `SearchTarget`, the closed tagged union of discovery scopes
(source `enum SearchTarget`). -/
inductive SearchTarget where
  | All
  | RootDevices
  | Device (device : String)
  | DeviceType (device : String)
  | ServiceType (service : String)
  | DomainDeviceType (domain : String) (device : String)
  | DomainServiceType (domain : String) (service : String)
deriving DecidableEq, Repr

/-- Character-level encoding of a `SearchTarget`, following the source's
`Display` implementation (note the source writes `ssdp::all` with a
double colon for `All`). -/
def SearchTarget.encodeData : SearchTarget → List Char
  | .All => "ssdp::all".data
  | .RootDevices => "upnp:rootdevice".data
  | .Device device => "uuid:".data ++ device.data
  | .DeviceType device => "urn:schemas-upnp-org:device:".data ++ device.data
  | .ServiceType service => "urn:schemas-upnp-org:service:".data ++ service.data
  | .DomainDeviceType domain device =>
      "urn:".data ++ domain.data ++ ":device:".data ++ device.data
  | .DomainServiceType domain service =>
      "urn:".data ++ domain.data ++ ":service:".data ++ service.data

/-- String form of a `SearchTarget` (the source's `Display::fmt`). -/
def SearchTarget.encode (t : SearchTarget) : String :=
  ⟨t.encodeData⟩

/-- Character-level decoding, following the source's `FromStr`
implementation: two exact literals, then three prefix tests with
byte-index slicing (28 = length of `urn:schemas-upnp-org:device:`,
29 = length of `urn:schemas-upnp-org:service:`); domain-qualified
variants are not decoded. -/
def SearchTarget.decodeData (s : List Char) : Option SearchTarget :=
  if s = "ssdp::all".data then
    some .All
  else if s = "upnp:rootdevice".data then
    some .RootDevices
  else if "uuid:".data.isPrefixOf s then
    some (.Device ⟨s.drop 5⟩)
  else if "urn:schemas-upnp-org:device:".data.isPrefixOf s then
    some (.DeviceType ⟨s.drop 28⟩)
  else if "urn:schemas-upnp-org:service:".data.isPrefixOf s then
    some (.ServiceType ⟨s.drop 29⟩)
  else
    none

/-- String-level decoding (the source's `FromStr for SearchTarget`). -/
def SearchTarget.decode (s : String) : Option SearchTarget :=
  SearchTarget.decodeData s.data

/-- The variants the decoder implements (the source's `from_str` handles
all variants except the domain-qualified ones). -/
def SearchTarget.isImplemented : SearchTarget → Bool
  | .DomainDeviceType _ _ => false
  | .DomainServiceType _ _ => false
  | _ => true

/-- Per-search configuration (source `struct Options`). `max_wait_time`
is a Rust `u8`, modelled as `Nat`. -/
structure Options where
  spec_version : SpecVersion
  search_target : SearchTarget
  network_interface : Option String
  max_wait_time : Nat
  product_and_version : Option String
  control_point : Option ControlPoint
deriving DecidableEq, Repr

/-- The source's `Default for Options`. -/
def Options.default : Options :=
  { spec_version := .V10
    search_target := .RootDevices
    network_interface := none
    max_wait_time := 2
    product_and_version := none
    control_point := none }

/-- The rejection condition of the first check in `Options::validate`:
`max_wait_time < 1 || max_wait_time > 120`. -/
def maxWaitTimeBad (o : Options) : Prop :=
  o.max_wait_time < 1 ∨ o.max_wait_time > 120

instance (o : Options) : Decidable (maxWaitTimeBad o) := by
  unfold maxWaitTimeBad
  infer_instance

/-- The source's lazily-initialized validation regex is `Regex::new("^$")`:
anchored at both haystack boundaries, `is_match` holds exactly for the
empty string. -/
def re_is_match (s : String) : Bool :=
  s == ""

/-- The source's `Options::validate`: reject `max_wait_time` outside
`[1,120]`; under V11+, a present `product_and_version` must satisfy the
regex; under V20, a control point with non-empty `friendly_name` is
required. -/
def Options.validate (o : Options) : Except Error Unit :=
  if maxWaitTimeBad o then
    .error (.MessageFormat .InvalidFieldValue)
  else if o.spec_version.atLeast .V11 &&
      (match o.product_and_version with
       | some user_agent => ! re_is_match user_agent
       | none => false) then
    .error (.MessageFormat .InvalidFieldValue)
  else if o.spec_version.atLeast .V20 then
    match o.control_point with
    | none => .error (.MessageFormat .InvalidFieldValue)
    | some control_point =>
        if control_point.friendly_name = "" then
          .error (.MessageFormat .InvalidFieldValue)
        else
          .ok ()
  else
    .ok ()

/-- Modelled from the spec: wire name of the boot identifier response
header. -/
def HEAD_BOOTID : String := "BOOTID.UPNP.ORG"

/-- Modelled from the spec: wire name of the cache-control response
header. -/
def HEAD_CACHE_CONTROL : String := "CACHE-CONTROL"

/-- Modelled from the spec: wire name of the date response header. -/
def HEAD_DATE : String := "DATE"

/-- Modelled from the spec: wire name of the extension-acknowledgement
response header. -/
def HEAD_EXT : String := "EXT"

/-- Modelled from the spec: wire name of the location response header. -/
def HEAD_LOCATION : String := "LOCATION"

/-- Modelled from the spec: wire name of the search-target header. -/
def HEAD_ST : String := "ST"

/-- Modelled from the spec: wire name of the unique-service-name
response header. -/
def HEAD_USN : String := "USN"

/-- Modelled from the spec: wire name of the server response header. -/
def HEAD_SERVER : String := "SERVER"

/-- Modelled from the spec: wire name of the host request header. -/
def HEAD_HOST : String := "HOST"

/-- Modelled from the spec: wire name of the mandatory-extension request
header. -/
def HEAD_MAN : String := "MAN"

/-- Modelled from the spec: wire name of the maximum-wait request
header. -/
def HEAD_MX : String := "MX"

/-- Modelled from the spec: wire name of the user-agent request header.
-/
def HEAD_USER_AGENT : String := "USER-AGENT"

/-- Modelled from the spec: wire name of the control-point friendly-name
request header (V20). -/
def HEAD_CP_FN : String := "CPFN.UPNP.ORG"

/-- Modelled from the spec: wire name of the control-point TCP port
request header (V20). The source reuses this one name for the UUID
header as well. -/
def HEAD_TCP_PORT : String := "TCPPORT.UPNP.ORG"

/-- Modelled from the spec: the well-known discovery multicast
group/port, used as the HOST header value. -/
def MULTICAST_ADDRESS : String := "239.255.255.250:1900"

/-- Modelled from the spec: the HTTP-extension marker used as the MAN
header value. -/
def HTTP_EXTENSION : String := "\"ssdp:discover\""

/-- Header container of a raw message: an association list standing in
for Rust's `HashMap<String, String>` (lookup is first match). -/
abbrev Headers := List (String × String)

/-- A raw transport response (the framing collaborator's type); only its
header map is consumed by this module. -/
structure MulticastResponse where
  headers : Headers
deriving DecidableEq, Repr

/-- Modelled from the spec: parse-stage errors name the offending
header. -/
inductive HeaderErr where
  | MissingRequiredField (name : String)
  | InvalidFieldValue (name : String)
deriving DecidableEq, Repr

/-- Modelled from the spec: `utils::headers::check_required` — every
name in the required list must be present in the header map, else a
`MissingRequiredField` error naming the first missing header. -/
def check_required (headers : Headers) (required : List String) :
    Except HeaderErr Unit :=
  match required with
  | [] => .ok ()
  | name :: rest =>
      if (headers.lookup name).isSome then
        check_required headers rest
      else
        .error (.MissingRequiredField name)

/-- Modelled from the spec: `utils::headers::check_empty` — the value
must be the empty string. -/
def check_empty (value : String) (name : String) : Except HeaderErr Unit :=
  if value = "" then .ok () else .error (.InvalidFieldValue name)

/-- Modelled from the spec: `utils::headers::check_not_empty` — the
value must be non-empty and is returned. -/
def check_not_empty (value : String) (name : String) :
    Except HeaderErr String :=
  if value = "" then .error (.InvalidFieldValue name) else .ok value

/-- Decimal digits to a natural number, most significant first. -/
def digitsToNat (ds : List Char) : Nat :=
  ds.foldl (fun n c => n * 10 + (c.toNat - 48)) 0

/-- Modelled from the spec: `utils::headers::check_parsed_value::<u64>`
— the whole value must be a non-empty string of decimal digits (Rust's
`u64::from_str`); overflow is not modelled (`Nat`). -/
def check_parsed_u64 (value : String) (name : String) :
    Except HeaderErr Nat :=
  if value.data ≠ [] ∧ value.data.all Char.isDigit then
    .ok (digitsToNat value.data)
  else
    .error (.InvalidFieldValue name)

/-- Skip a run of space characters (the `[ ]*` parts of the max-age
pattern). -/
def skipSpaces : List Char → List Char
  | ' ' :: cs => skipSpaces cs
  | cs => cs

/-- Try to match `max-age[ ]*=[ ]*(\d+)` anchored at the head of the
list, returning the captured digit run. -/
def matchMaxAgeAt (s : List Char) : Option (List Char) :=
  if "max-age".data.isPrefixOf s then
    match skipSpaces (s.drop 7) with
    | '=' :: rest =>
        let digits := (skipSpaces rest).takeWhile Char.isDigit
        if digits = [] then none else some digits
    | _ => none
  else
    none

/-- Scan the haystack left to right for a position where
`matchMaxAgeAt` succeeds (regex search semantics). -/
def scanMaxAge : List Char → Option (List Char)
  | [] => none
  | c :: cs =>
      match matchMaxAgeAt (c :: cs) with
      | some digits => some digits
      | none => scanMaxAge cs

/-- Modelled from the spec: `utils::headers::check_regex` applied to the
pattern `max-age[ ]*=[ ]*(\d+)` — the value must contain a match and the
captured digit group is returned. -/
def check_regex_max_age (value : String) (name : String) :
    Except HeaderErr String :=
  match scanMaxAge value.data with
  | some digits => .ok ⟨digits⟩
  | none => .error (.InvalidFieldValue name)

/-- A parsed device/service advertisement (source `struct Response`). -/
structure Response where
  max_age : Nat
  date : String
  server : String
  location : String
  search_target : SearchTarget
  service_name : String
  boot_id : Nat
  other_headers : Headers
deriving DecidableEq, Repr

/-- The source's `REQUIRED_HEADERS` array — note it has only seven
entries and does NOT contain `SERVER`. -/
def REQUIRED_HEADERS : List String :=
  [HEAD_BOOTID, HEAD_CACHE_CONTROL, HEAD_DATE, HEAD_EXT, HEAD_LOCATION,
   HEAD_ST, HEAD_USN]

/-- Outcome of converting one raw response: success, a parse error, or a
Rust panic (a failing `.unwrap()` on a missing header). -/
inductive ParseOutcome where
  | ok (r : Response)
  | error (e : HeaderErr)
  | panicked
deriving DecidableEq, Repr

/-- The source's `TryFrom<MulticastResponse> for Response`, with the
struct-literal fields evaluated in source order (`boot_id`, `max_age`,
`date`, `server`, `location`, `search_target`, `service_name`). Every
source `.unwrap()` on a header lookup becomes an explicit `.panicked`
branch when the header is absent. The `remaining_headers` filter keeps
exactly the headers whose name IS in `REQUIRED_HEADERS`, as the source's
filter closure does. -/
def Response.tryFrom (response : MulticastResponse) : ParseOutcome :=
  match check_required response.headers REQUIRED_HEADERS with
  | .error e => .error e
  | .ok () =>
  match response.headers.lookup HEAD_EXT with
  | none => .panicked
  | some ext_value =>
  match check_empty ext_value HEAD_EXT with
  | .error e => .error e
  | .ok () =>
  let remaining_headers : Headers :=
    response.headers.filter (fun kv => REQUIRED_HEADERS.contains kv.fst)
  match response.headers.lookup HEAD_BOOTID with
  | none => .panicked
  | some boot_value =>
  match check_parsed_u64 boot_value HEAD_BOOTID with
  | .error e => .error e
  | .ok boot_id =>
  match response.headers.lookup HEAD_CACHE_CONTROL with
  | none => .panicked
  | some cache_value =>
  match check_regex_max_age cache_value HEAD_CACHE_CONTROL with
  | .error e => .error e
  | .ok captured =>
  match check_parsed_u64 captured HEAD_CACHE_CONTROL with
  | .error e => .error e
  | .ok max_age =>
  match response.headers.lookup HEAD_DATE with
  | none => .panicked
  | some date_value =>
  match check_not_empty date_value HEAD_DATE with
  | .error e => .error e
  | .ok date =>
  match response.headers.lookup HEAD_SERVER with
  | none => .panicked
  | some server_value =>
  match check_not_empty server_value HEAD_SERVER with
  | .error e => .error e
  | .ok server =>
  match response.headers.lookup HEAD_LOCATION with
  | none => .panicked
  | some location_value =>
  match check_not_empty location_value HEAD_LOCATION with
  | .error e => .error e
  | .ok location =>
  match response.headers.lookup HEAD_USN with
  | none => .panicked
  | some usn_value =>
  match check_not_empty usn_value HEAD_USN with
  | .error e => .error e
  | .ok service_name =>
  .ok { max_age := max_age
        date := date
        server := server
        location := location
        search_target := SearchTarget.All
        service_name := service_name
        boot_id := boot_id
        other_headers := remaining_headers }

/-- Outcome of processing a whole batch of raw responses. -/
inductive BatchOutcome where
  | ok (rs : List Response)
  | error (e : HeaderErr)
  | panicked
deriving DecidableEq, Repr

/-- The source's response loop in `search_once` (lines 178–182): each
raw response is converted with `try_into()?`, so the first failure
aborts the loop and discards all other results. -/
def parseAll : List MulticastResponse → BatchOutcome
  | [] => .ok []
  | raw :: rest =>
      match Response.tryFrom raw with
      | .panicked => .panicked
      | .error e => .error e
      | .ok r =>
          match parseAll rest with
          | .ok rs => .ok (r :: rs)
          | .error e => .error e
          | .panicked => .panicked

/-- Modelled from the spec: `user_agent::make`, the external user-agent
formatter composed from the spec version and the optional
product-and-version string. -/
def user_agent_make (v : SpecVersion) (product : Option String) : String :=
  (match v with
   | .V10 => "UPnP/1.0 "
   | .V11 => "UPnP/1.1 "
   | .V20 => "UPnP/2.0 ") ++ product.getD "rust-upnp/0.1"

/-- The request headers built by `search_once` (source lines 139–170)
before the message is handed to the transport: the four 1.0 headers,
the V11+ USER-AGENT header, and the V20 control-point headers; under
V20 a missing control point fails with `MissingRequiredField`. The
UUID header is added under `HEAD_TCP_PORT`, exactly as the source does.
-/
def search_once_headers (options : Options) : Except Error Headers :=
  let base : Headers :=
    [(HEAD_HOST, MULTICAST_ADDRESS),
     (HEAD_MAN, HTTP_EXTENSION),
     (HEAD_MX, toString options.max_wait_time),
     (HEAD_ST, options.search_target.encode)]
  let base :=
    if options.spec_version.atLeast .V11 then
      base ++ [(HEAD_USER_AGENT,
                user_agent_make options.spec_version
                  options.product_and_version)]
    else base
  if options.spec_version.atLeast .V20 then
    match options.control_point with
    | some cp =>
        let base := base ++ [(HEAD_CP_FN, cp.friendly_name)]
        let base :=
          match cp.port with
          | some port => base ++ [(HEAD_TCP_PORT, toString port)]
          | none => base
        let base :=
          match cp.uuid with
          | some uuid => base ++ [(HEAD_TCP_PORT, uuid)]
          | none => base
        .ok base
    | none => .error (.MessageFormat .MissingRequiredField)
  else
    .ok base

/-- A cached advertisement with its absolute expiration time (source
`struct CachedResponse`). -/
structure CachedResponse where
  response : Response
  expiration : Nat
deriving DecidableEq, Repr

/-- The response cache (source `struct ResponseCache`). -/
structure ResponseCache where
  options : Options
  minimum_refresh : Nat
  last_updated : Nat
  stored : List CachedResponse
deriving DecidableEq, Repr

/-- The source's `ResponseCache::responses` accessor: it unconditionally
returns a freshly allocated empty vector. -/
def ResponseCache.responses (_ : ResponseCache) : List Response :=
  []

/-- The source's cached-search entry point `search`: it validates the
options and then unconditionally returns
`Err(Error::MessageFormat(MessageErrorKind::VersionMismatch))` without
performing any search or constructing any cache. -/
def search (options : Options) : Except Error ResponseCache :=
  match options.validate with
  | .error e => .error e
  | .ok () => .error (.MessageFormat .VersionMismatch)

/-- Auxiliary fact: a list is a `isPrefixOf` of itself followed by any
suffix. -/
theorem isPrefixOf_append_self (p s : List Char) :
    p.isPrefixOf (p ++ s) = true := by
  induction p with
  | nil => simp [List.isPrefixOf]
  | cons c cs ih => simp [List.isPrefixOf, ih]

/-- A well-formed raw response header set: all eight wire headers,
including `SERVER`, with representative values. -/
def goodHeaders : Headers :=
  [(HEAD_BOOTID, "1"),
   (HEAD_CACHE_CONTROL, "max-age=1800"),
   (HEAD_DATE, "Sun, 12 Oct 2026 00:00:00 GMT"),
   (HEAD_EXT, ""),
   (HEAD_LOCATION, "http://192.168.1.100:1900/desc.xml"),
   (HEAD_ST, "upnp:rootdevice"),
   (HEAD_USN, "uuid:device-1"),
   (HEAD_SERVER, "linux/1.0 UPnP/1.0 test/1.0")]

/-- A well-formed raw response. -/
def respGood : MulticastResponse :=
  ⟨goodHeaders⟩

/-- The same raw response with the `SERVER` header absent and every
other header intact. -/
def respNoServer : MulticastResponse :=
  ⟨[(HEAD_BOOTID, "1"),
    (HEAD_CACHE_CONTROL, "max-age=1800"),
    (HEAD_DATE, "Sun, 12 Oct 2026 00:00:00 GMT"),
    (HEAD_EXT, ""),
    (HEAD_LOCATION, "http://192.168.1.100:1900/desc.xml"),
    (HEAD_ST, "upnp:rootdevice"),
    (HEAD_USN, "uuid:device-1")]⟩

/-- The same raw response with the `LOCATION` header absent and every
other header (including `SERVER`) intact. -/
def respNoLocation : MulticastResponse :=
  ⟨[(HEAD_BOOTID, "1"),
    (HEAD_CACHE_CONTROL, "max-age=1800"),
    (HEAD_DATE, "Sun, 12 Oct 2026 00:00:00 GMT"),
    (HEAD_EXT, ""),
    (HEAD_ST, "upnp:rootdevice"),
    (HEAD_USN, "uuid:device-1"),
    (HEAD_SERVER, "linux/1.0 UPnP/1.0 test/1.0")]⟩

/-- A well-formed raw response carrying one extra non-required header
`X-CUSTOM`. -/
def respExtra : MulticastResponse :=
  ⟨goodHeaders ++ [("X-CUSTOM", "custom")]⟩

/-- A malformed raw response: no headers at all. -/
def respBad : MulticastResponse :=
  ⟨[]⟩

/-- The record the parser produces for `respGood` (and for `respExtra`,
whose extra header the inverted filter drops): `other_headers` holds
exactly the seven `REQUIRED_HEADERS` entries. -/
def goodParsed : Response :=
  { max_age := 1800
    date := "Sun, 12 Oct 2026 00:00:00 GMT"
    server := "linux/1.0 UPnP/1.0 test/1.0"
    location := "http://192.168.1.100:1900/desc.xml"
    search_target := SearchTarget.All
    service_name := "uuid:device-1"
    boot_id := 1
    other_headers :=
      [(HEAD_BOOTID, "1"),
       (HEAD_CACHE_CONTROL, "max-age=1800"),
       (HEAD_DATE, "Sun, 12 Oct 2026 00:00:00 GMT"),
       (HEAD_EXT, ""),
       (HEAD_LOCATION, "http://192.168.1.100:1900/desc.xml"),
       (HEAD_ST, "upnp:rootdevice"),
       (HEAD_USN, "uuid:device-1")] }

/-- Claim C1: the claim says `search(options)` performs an initial
search and returns `Ok` with a populated `ResponseCache` for every
validating `Options`, and that `responses()` returns the stored
non-expired entries. The code instead returns
`Err(MessageFormat(VersionMismatch))` unconditionally after validation,
and `responses()` always returns an empty vector: the default (valid)
options validate, yet `search` fails, and every cache's `responses()` is
empty. -/
theorem c1_search_cache_unimplemented :
    Options.default.validate = .ok () ∧
    search Options.default = .error (.MessageFormat .VersionMismatch) ∧
    ∀ cache : ResponseCache, cache.responses = [] :=
  ⟨rfl, rfl, fun _ => rfl⟩

/-- Claim C2: the claim says a response missing any of the eight
required headers (including `SERVER`) fails parsing with a
`MissingRequiredField` error naming the header, with no other behaviour
such as a panic. The code's `REQUIRED_HEADERS` omits `SERVER` and then
unwraps the `SERVER` lookup, so a response missing only `SERVER` panics
instead; a response missing `LOCATION` (which is in the set) does fail
with the named error. -/
theorem c2_missing_server_panics :
    Response.tryFrom respNoServer = .panicked ∧
    Response.tryFrom respNoLocation =
      .error (.MissingRequiredField HEAD_LOCATION) :=
  ⟨rfl, rfl⟩

/-- Claim C3: the claim says `other_headers` holds exactly the headers
NOT in the required set. The code's filter keeps exactly the headers
that ARE in `REQUIRED_HEADERS`: parsing a response with an extra
`X-CUSTOM` header yields `other_headers` that drops `X-CUSTOM` yet
contains the required `DATE` header. -/
theorem c3_other_headers_filter_inverted :
    Response.tryFrom respExtra = .ok goodParsed ∧
    ("X-CUSTOM", "custom") ∉ goodParsed.other_headers ∧
    (HEAD_DATE, "Sun, 12 Oct 2026 00:00:00 GMT") ∈
      goodParsed.other_headers :=
  ⟨rfl, by decide, by decide⟩

/-- Claim C4: the claim says a `product_and_version` matching the
`ProductName/Version` pattern (such as `ProductName/1.0`) passes the
V11 check. The code's validation regex is `^$`, which matches only the
empty string, so `ProductName/1.0` is rejected with
`InvalidFieldValue` (while the empty string passes). -/
theorem c4_matching_product_rejected :
    ({ Options.default with
        spec_version := .V11,
        product_and_version := some "ProductName/1.0" } : Options).validate
      = .error (.MessageFormat .InvalidFieldValue) ∧
    ({ Options.default with
        spec_version := .V11,
        product_and_version := some "" } : Options).validate = .ok () :=
  ⟨rfl, rfl⟩

/-- Claim C5: the claim says the parsed `search_target` equals the
originating request's search target. The converter has no access to the
request at all and hard-codes `SearchTarget::All` into every
successfully parsed `Response`. -/
theorem c5_search_target_hardcoded (resp : MulticastResponse)
    (r : Response) (h : Response.tryFrom resp = .ok r) :
    r.search_target = SearchTarget.All := by
  unfold Response.tryFrom at h
  repeat' split at h
  all_goals cases h
  rfl

/-- Witness for C5 at a concrete well-formed response. -/
theorem c5_search_target_hardcoded_witness :
    Response.tryFrom respGood = .ok goodParsed ∧
    goodParsed.search_target = SearchTarget.All :=
  ⟨rfl, c5_search_target_hardcoded respGood goodParsed rfl⟩

/-- Claim C6: the claim says one malformed response must not abort the
batch and the well-formed responses are still returned. The loop in
`search_once` applies `try_into()?`, so the first parse failure aborts
the whole batch: a batch of a malformed response followed by a
well-formed one (which parses fine on its own) yields only the error
and discards the good response. -/
theorem c6_batch_aborts_on_first_parse_error :
    Response.tryFrom respGood = .ok goodParsed ∧
    parseAll [respBad, respGood] =
      .error (.MissingRequiredField HEAD_BOOTID) :=
  ⟨rfl, rfl⟩

/-- Claim C7: for every implemented `SearchTarget` variant (`All`,
`RootDevices`, `Device`, `DeviceType`, `ServiceType`), decoding the
encoded string yields the original value. -/
theorem c7_decode_encode_roundtrip (t : SearchTarget)
    (h : t.isImplemented = true) :
    SearchTarget.decode (SearchTarget.encode t) = some t := by
  cases t with
  | All => rfl
  | RootDevices => rfl
  | Device device =>
      show SearchTarget.decodeData ("uuid:".data ++ device.data)
        = some (.Device device)
      rw [SearchTarget.decodeData]
      rw [if_neg ?d1, if_neg ?d2, if_pos ?d3]
      case d1 => simp
      case d2 => simp
      case d3 => exact isPrefixOf_append_self _ _
      rfl
  | DeviceType device =>
      show SearchTarget.decodeData
          ("urn:schemas-upnp-org:device:".data ++ device.data)
        = some (.DeviceType device)
      rw [SearchTarget.decodeData]
      rw [if_neg ?e1, if_neg ?e2, if_neg ?e3, if_pos ?e4]
      case e1 => simp
      case e2 => simp
      case e3 =>
        have hfalse : ("uuid:".data.isPrefixOf
            ("urn:schemas-upnp-org:device:".data ++ device.data)) = false :=
          rfl
        simp [hfalse]
      case e4 => exact isPrefixOf_append_self _ _
      rfl
  | ServiceType service =>
      show SearchTarget.decodeData
          ("urn:schemas-upnp-org:service:".data ++ service.data)
        = some (.ServiceType service)
      rw [SearchTarget.decodeData]
      rw [if_neg ?f1, if_neg ?f2, if_neg ?f3, if_neg ?f4, if_pos ?f5]
      case f1 => simp
      case f2 => simp
      case f3 =>
        have hfalse : ("uuid:".data.isPrefixOf
            ("urn:schemas-upnp-org:service:".data ++ service.data)) = false :=
          rfl
        simp [hfalse]
      case f4 =>
        have hfalse : ("urn:schemas-upnp-org:device:".data.isPrefixOf
            ("urn:schemas-upnp-org:service:".data ++ service.data)) = false :=
          rfl
        simp [hfalse]
      case f5 => exact isPrefixOf_append_self _ _
      rfl
  | DomainDeviceType domain device => simp [SearchTarget.isImplemented] at h
  | DomainServiceType domain service => simp [SearchTarget.isImplemented] at h

/-- Witness for C7 at a concrete implemented variant. -/
theorem c7_decode_encode_roundtrip_witness :
    (SearchTarget.Device "abc-123").isImplemented = true ∧
    SearchTarget.decode (SearchTarget.encode (.Device "abc-123")) =
      some (.Device "abc-123") :=
  ⟨rfl, c7_decode_encode_roundtrip (.Device "abc-123") rfl⟩

/-- Claim C8: `Options::validate` returns `InvalidFieldValue` whenever
`max_wait_time` is 0 or above 120, for any other option values; and for
every value in `[1,120]` the max-wait-time check (the rejection guard
`maxWaitTimeBad`) passes. -/
theorem c8_max_wait_time_bounds (o : Options) (n : Nat)
    (hbad : o.max_wait_time < 1 ∨ o.max_wait_time > 120)
    (h1 : 1 ≤ n) (h2 : n ≤ 120) :
    o.validate = .error (.MessageFormat .InvalidFieldValue) ∧
    ¬ maxWaitTimeBad { Options.default with max_wait_time := n } := by
  constructor
  · have hb : maxWaitTimeBad o := hbad
    unfold Options.validate
    rw [if_pos hb]
  · intro hb
    simp only [maxWaitTimeBad] at hb
    rcases hb with h | h <;> omega

/-- Witness for C8 at `max_wait_time = 121` (rejected) and
`max_wait_time = 2` (check passes). -/
theorem c8_max_wait_time_bounds_witness :
    ({ Options.default with max_wait_time := 121 } : Options).validate
      = .error (.MessageFormat .InvalidFieldValue) ∧
    ¬ maxWaitTimeBad { Options.default with max_wait_time := 2 } :=
  ⟨(c8_max_wait_time_bounds { Options.default with max_wait_time := 121 } 2
      (Or.inr (by decide)) (by decide) (by decide)).1,
   (c8_max_wait_time_bounds { Options.default with max_wait_time := 121 } 2
      (Or.inr (by decide)) (by decide) (by decide)).2⟩

/-- Claim C9: under V20 with a control point carrying both a port and a
uuid, request construction emits the port header and then a second
header with the SAME port-header name carrying the uuid; no earlier
header uses that name, so the uuid does not get a distinct header
name. -/
theorem c9_uuid_reuses_port_header_name (o : Options) (cp : ControlPoint)
    (port : Nat) (uuid : String)
    (hv : o.spec_version = .V20) (hcp : o.control_point = some cp)
    (hport : cp.port = some port) (huuid : cp.uuid = some uuid) :
    ∃ pre : Headers,
      search_once_headers o =
        .ok (pre ++ [(HEAD_TCP_PORT, toString port), (HEAD_TCP_PORT, uuid)])
      ∧ ∀ kv ∈ pre, kv.fst ≠ HEAD_TCP_PORT := by
  refine ⟨[(HEAD_HOST, MULTICAST_ADDRESS),
           (HEAD_MAN, HTTP_EXTENSION),
           (HEAD_MX, toString o.max_wait_time),
           (HEAD_ST, o.search_target.encode),
           (HEAD_USER_AGENT,
            user_agent_make o.spec_version o.product_and_version),
           (HEAD_CP_FN, cp.friendly_name)], ?_, ?_⟩
  · unfold search_once_headers
    rw [hv, hcp]
    simp [hport, huuid, SpecVersion.atLeast, SpecVersion.rank]
  · intro kv hkv
    simp only [List.mem_cons, List.not_mem_nil, or_false] at hkv
    rcases hkv with rfl | rfl | rfl | rfl | rfl | rfl <;>
      simp [HEAD_HOST, HEAD_MAN, HEAD_MX, HEAD_ST, HEAD_USER_AGENT,
            HEAD_CP_FN, HEAD_TCP_PORT]

/-- Witness for C9 at a concrete V20 configuration. -/
theorem c9_uuid_reuses_port_header_name_witness :
    ∃ pre : Headers,
      search_once_headers
        { Options.default with
            spec_version := .V20,
            control_point := some
              { friendly_name := "cp", port := some 8080,
                uuid := some "uuid:cp-1" } } =
        .ok (pre ++ [(HEAD_TCP_PORT, toString 8080),
                     (HEAD_TCP_PORT, "uuid:cp-1")])
      ∧ ∀ kv ∈ pre, kv.fst ≠ HEAD_TCP_PORT :=
  c9_uuid_reuses_port_header_name
    { Options.default with
        spec_version := .V20,
        control_point := some
          { friendly_name := "cp", port := some 8080,
            uuid := some "uuid:cp-1" } }
    { friendly_name := "cp", port := some 8080, uuid := some "uuid:cp-1" }
    8080 "uuid:cp-1" rfl rfl rfl rfl

/-- Claim C10: the default `Options` (V10, RootDevices, wait time 2, no
interface, no product string, no control point) passes validation. -/
theorem c10_default_options_validate :
    Options.default.validate = .ok () :=
  rfl

end Upnp
